import Mathlib

/-!
Verification of the YouTube-Monster API handlers.

Shallow embedding of `api/analyze-asr.py` and `api/transcribe.py`.
The external collaborators (yt-dlp, the Whisper pipeline, the Gemini HTTP
endpoint, the filesystem, `json.loads`) are modelled as explicit inputs
(a "world" record and oracle functions); everything the two Python files
themselves compute is translated directly.
-/

/-- A JSON-decoded Python value, as produced by `json.loads`.
JSON arrays are omitted (no claim depends on them); note that in Python
`isinstance(True, int)` holds, so `bool` participates in the numeric
`isinstance(x, (int, float))` checks below.  Python floats are modelled as
exact rationals. -/
inductive PyVal where
  | null
  | bool (b : Bool)
  | int (n : Int)
  | float (q : ℚ)
  | str (s : String)
  | dict (entries : List (String × PyVal))

/-- Python truthiness (`if not video_id`, `if ai_response.strip()`...). -/
def PyVal.truthy : PyVal → Bool
  | .null => false
  | .bool b => b
  | .int n => n != 0
  | .float q => q != 0
  | .str s => s != ""
  | .dict es => !es.isEmpty

/-- `isinstance(x, (int, float))` — true for Python bools as well. -/
def PyVal.isNum : PyVal → Bool
  | .bool _ => true
  | .int _ => true
  | .float _ => true
  | _ => false

/-- Numeric value of a Python number (`True` compares equal to 1,
`False` to 0). Non-numbers are never consulted through this function. -/
def PyVal.toQ : PyVal → ℚ
  | .bool b => if b then 1 else 0
  | .int n => n
  | .float q => q
  | _ => 0

/-- Python `int(x)` on a number: truncation toward zero.  A rational in
lowest terms has a positive denominator, so truncating division of the
numerator by the denominator is truncation of the value toward zero. -/
def pyTrunc (q : ℚ) : Int :=
  q.num.tdiv q.den

/-- Python `str.isalnum` restricted to ASCII letters and digits (the
video-id claims only involve ASCII characters). -/
def isalnumChar (c : Char) : Bool := c.isAlpha || c.isDigit

/-- `s.isalnum()`: true iff `s` is non-empty and all characters are
alphanumeric. -/
def pyStrIsAlnum (cs : List Char) : Bool := !cs.isEmpty && cs.all isalnumChar

/-- `video_id.replace('-', '').replace('_', '')`: removing every occurrence
of a one-character substring is filtering that character out. -/
def stripDashUnderscore (cs : List Char) : List Char :=
  cs.filter (fun c => !(c == '\x2d' || c == '\x5f'))

/-- The video-id format test of both handlers:
`len(video_id) == 11 and video_id.replace('-', '').replace('_', '').isalnum()`. -/
def validVideoId (s : String) : Bool :=
  s.toList.length == 11 && pyStrIsAlnum (stripDashUnderscore s.toList)

/-- Outcome of the videoId validation steps of `do_POST` (lines 239-250 of
`analyze-asr.py`, 35-43 of `transcribe.py`).  A truthy non-string value
reaches `len(video_id)` / `.replace`, raising a `TypeError`/`AttributeError`
that the outer `except` turns into the generic internal error. -/
inductive ValOutcome where
  | missing
  | invalid
  | typeError
  | ok (s : String)
deriving DecidableEq, Repr

/-- `request_data.get('videoId')` followed by the two validation tests:
`if not video_id` yields the missing-id error; a truthy string is format
checked; a truthy non-string raises in `len`/`.replace` (handled by the
outer `except`).  Written one constructor per arm for clean equations. -/
def checkVideoId : PyVal → ValOutcome
  | .str s =>
    if !(PyVal.str s).truthy then .missing
    else if validVideoId s then .ok s else .invalid
  | .null => if !(PyVal.null).truthy then .missing else .typeError
  | .bool b => if !(PyVal.bool b).truthy then .missing else .typeError
  | .int n => if !(PyVal.int n).truthy then .missing else .typeError
  | .float q => if !(PyVal.float q).truthy then .missing else .typeError
  | .dict es => if !(PyVal.dict es).truthy then .missing else .typeError

/-- Does validation pass? -/
def ValOutcome.passes : ValOutcome → Bool
  | .ok _ => true
  | _ => false

/-- Lines 252-255 of `analyze-asr.py`:
`sensitivity_index = 5` then
`if isinstance(sensitivity, (int, float)) and 1 <= sensitivity <= 10:
   sensitivity_index = int(sensitivity)`. -/
def resolveSensitivity (v : PyVal) : Int :=
  if v.isNum && decide (1 ≤ v.toQ) && decide (v.toQ ≤ 10) then pyTrunc v.toQ else 5

/-- Lines 257-260 of `analyze-asr.py`:
`max_timestamp = 450` then
`if isinstance(video_duration, (int, float)) and video_duration > 10:
   max_timestamp = int(video_duration)`. -/
def resolveMaxTimestamp (v : PyVal) : Int :=
  if v.isNum && decide ((10 : ℚ) < v.toQ) then pyTrunc v.toQ else 450

example : resolveSensitivity (.float (mkRat 57 10)) = 5 := by decide
example : resolveSensitivity (.bool true) = 1 := by decide
example : resolveSensitivity .null = 5 := by decide
example : resolveMaxTimestamp (.float (mkRat 999 10)) = 99 := by decide
example : checkVideoId (.str "dQw4w9WgXcQ") = .ok "dQw4w9WgXcQ" := by decide
example : checkVideoId (.str "___________") = .invalid := by decide
example : checkVideoId (.str "abc") = .invalid := by decide
example : checkVideoId (.int 7) = .typeError := by decide
example : checkVideoId .null = .missing := by decide

/-- Python `str.strip()` (no argument): drop whitespace from both ends.
Implemented over the character list so that it evaluates by reduction. -/
def pyStrip (s : String) : String :=
  ((s.toList.dropWhile Char.isWhitespace).reverse.dropWhile
    Char.isWhitespace).reverse.asString

/-! ### Transcriber (`transcribe_audio`, identical in both files) -/

/-- One entry of `result['chunks']`.  `Option` models dictionary-key
presence (the code tests `'timestamp' in chunk and 'text' in chunk`); the
timestamp is the `(start, end)` pair in seconds, modelled as exact
rationals with both endpoints present. -/
structure WhisperChunk where
  timestamp : Option (ℚ × ℚ)
  text : Option String

/-- The value returned by the Whisper pipeline: the code tests
`'chunks' in result` first and `'text' in result` otherwise. -/
structure WhisperResult where
  chunks : Option (List WhisperChunk)
  text : Option String

/-- The segment shape both handlers produce:
`{'offset': ..., 'text': ..., 'duration': ...}` (duration `None` in the
single-result case). -/
structure TranscriptSegment where
  offset : Int
  text : String
  duration : Option Int
deriving DecidableEq, Repr

/-- `int(x * 1000)`: `x * 1000 = (x.num * 1000) / x.den` and truncating
division of the numerator by the (positive) denominator truncates the
value toward zero.  (Executable form; see `pyInt1000_eq`.) -/
def pyInt1000 (q : ℚ) : Int := (q.num * 1000).tdiv q.den

/-- `int((e - s) * 1000)`: same executable scheme over the unreduced
fraction of `e - s`.  (See `pyIntDiff1000_eq`.) -/
def pyIntDiff1000 (e s : ℚ) : Int :=
  ((e.num * s.den - s.num * e.den) * 1000).tdiv (e.den * s.den)

/-- `'timestamp' in chunk and 'text' in chunk`. -/
def chunkComplete (c : WhisperChunk) : Bool := c.timestamp.isSome && c.text.isSome

/-- The body of the `for chunk in result['chunks']` loop: chunks missing
either key are skipped, the others yield one segment. -/
def convertChunk (c : WhisperChunk) : Option TranscriptSegment :=
  match c.timestamp, c.text with
  | some (s, e), some t => some ⟨pyInt1000 s, pyStrip t, some (pyIntDiff1000 e s)⟩
  | _, _ => none

/-- Normalisation of the model output to the segment list (lines 93-112 of
`analyze-asr.py`, 142-161 of `transcribe.py`). -/
def whisperSegments (r : WhisperResult) : List TranscriptSegment :=
  match r.chunks with
  | some cs => cs.filterMap convertChunk
  | none =>
    match r.text with
    | some t => [⟨0, pyStrip t, none⟩]
    | none => []

/-- `transcribe_audio`: the model invocation is an external call whose
outcome (a raised error, or a result value) is an input; any failure is
re-raised as `Failed to transcribe audio: ...`. -/
def transcribe_audio (asr : Except String WhisperResult) :
    Except String (List TranscriptSegment) :=
  match asr with
  | .error e => .error ("Failed to transcribe audio: " ++ e)
  | .ok r => .ok (whisperSegments r)

/-! ### Content classifier (`analyze_with_gemini`) -/

/-- Outcome of one `requests.post` call to the Gemini endpoint, by segment
index: a raised exception (network error, timeout, a reply whose
candidate-extraction raises, ...), or a status code together with the text
extracted from the reply body (the chain of `.get` calls with defaults
yields `''` when fields are missing). -/
inductive GeminiOutcome where
  | exn
  | http (status : Nat) (aiResponse : String)

/-- `k in d` for a Python dict. -/
def hasKey (k : String) (d : List (String × PyVal)) : Bool :=
  d.any (fun p => p.1 == k)

/-- `d[k] = v` for a Python dict: overwrite in place if the key exists
(keeping its position), append otherwise. -/
def dictInsert (d : List (String × PyVal)) (k : String) (v : PyVal) :
    List (String × PyVal) :=
  if hasKey k d then d.map (fun p => if p.1 == k then (k, v) else p)
  else d ++ [(k, v)]

/-- The dict literal `{'timestamp': t, **event_obj}`: start from the
`timestamp` entry, then insert the entries of `event_obj` in order — so an
entry of `event_obj` keyed `timestamp` overwrites the computed value. -/
def mkEvent (t : Int) (entries : List (String × PyVal)) : List (String × PyVal) :=
  entries.foldl (fun d p => dictInsert d p.1 p.2) [("timestamp", PyVal.int t)]

/-- Python dict lookup. -/
def dictGet (k : String) (d : List (String × PyVal)) : Option PyVal :=
  (d.find? (fun p => p.1 == k)).map Prod.snd

/-- `re.search(r'\x7b[\s\S]*\x7d', s)` with a greedy middle: the match, if
any, runs from the first opening brace to the last closing brace. -/
def extractBraces (s : String) : Option String :=
  let cs := s.toList
  match cs.findIdx? (· == '\x7b'), cs.reverse.findIdx? (· == '\x7d') with
  | some i, some jr =>
    let j := cs.length - 1 - jr
    if i < j then some (((cs.drop i).take (j - i + 1)).asString) else none
  | _, _ => none

/-- `json.loads(ai_response.strip())` with the fallback
`re.search`-then-`json.loads` on the raw reply.  `jl` is the external
`json.loads`, returning `none` on a decode error (the fallback `loads` on
line 191 sits inside the broad per-segment `except`, so its failure also
skips the segment). -/
def parseAiResponse (jl : String → Option PyVal) (r : String) : Option PyVal :=
  match jl (pyStrip r) with
  | some v => some v
  | none => (extractBraces r).bind jl

/-- The four required reply fields. -/
def requiredFields : List String := ["category", "subCategory", "description", "phrase"]

/-- `'category' in event_obj and ... and 'phrase' in event_obj`. -/
def hasAllFields (es : List (String × PyVal)) : Bool :=
  requiredFields.all (fun k => hasKey k es)

/-- `segment['offset'] / 1000` as an exact rational. -/
def offsetSec (o : Int) : ℚ := mkRat o 1000

/-- One iteration of the `for i, segment in enumerate(...)` loop of
`analyze_with_gemini`, given the remote outcome for this segment: `none`
when the segment contributes no event (cutoff skip, exception, non-200
status, empty / `""` marker reply, unparseable reply, non-object parse, or
missing fields — for a non-dict parse the membership test either fails or
the `**event_obj` splat raises, and either way the segment is skipped).
In the source the cutoff `continue` precedes the request, so a skipped
segment generates no call; matching on the outcome first is value-equal
because the result is `none` in both orders. -/
def segEvent (jl : String → Option PyVal) (maxT : Int) (seg : TranscriptSegment) :
    GeminiOutcome → Option (List (String × PyVal))
  | .exn => none
  | .http status body =>
    if offsetSec seg.offset > (maxT : ℚ) then none
    else if status == 200 then
      if pyStrip body != "" && pyStrip body != "\x22\x22" then
        match parseAiResponse jl body with
        | some (.dict es) =>
          if hasAllFields es then some (mkEvent (pyTrunc (offsetSec seg.offset)) es)
          else none
        | _ => none
      else none
    else none

/-- The classification loop; the index `i` of `enumerate` is used by the
code only in log messages, and the sensitivity index only inside the
prompt text, which the index-keyed `oracle` subsumes. -/
def analyzeGo (jl : String → Option PyVal) (oracle : Nat → GeminiOutcome)
    (maxT : Int) : Nat → List TranscriptSegment → List (List (String × PyVal))
  | _, [] => []
  | i, seg :: rest =>
    (segEvent jl maxT seg (oracle i)).toList ++ analyzeGo jl oracle maxT (i + 1) rest

/-- `not os.getenv('GEMINI_API_KEY')`: the environment variable is modelled
as `Option String`; Python falsiness holds for an unset variable and for
one set to the empty string. -/
def envTruthy : Option String → Bool
  | none => false
  | some s => s != ""

/-- `analyze_with_gemini(transcript_segments, sensitivity_index,
max_timestamp)`: the credential check happens once, before the loop. -/
def analyze_with_gemini (env : Option String) (jl : String → Option PyVal)
    (oracle : Nat → GeminiOutcome) (segments : List TranscriptSegment)
    (sensitivityIndex maxTimestamp : Int) :
    Except String (List (List (String × PyVal))) :=
  if !envTruthy env then .error "GEMINI_API_KEY environment variable not set"
  else .ok (analyzeGo jl oracle maxTimestamp 0 segments)

/-! ### Request orchestrator (the two `do_POST` handlers) -/

/-- Externally observable side effects of one request, in order. -/
inductive Effect where
  | download (videoId : String)
  | transcribeCall (path : String)
  | classify
  | cleanupCall (path : String)
  | removeAttempt (path : String) (raised : Bool)
deriving DecidableEq, Repr

/-- `os.path.join(tempfile.gettempdir(), f"{video_id}.wav")` (the temp
directory is a fixed external value). -/
def tempOutputPath (videoId : String) : String := "/tmp/" ++ videoId ++ ".wav"

/-- `download_youtube_audio`: the yt-dlp call is external; on any raised
error the function re-raises `Failed to download audio for video {id}`,
otherwise it returns the output path. -/
def download_youtube_audio (videoId : String) (dlFails : Bool) : Except String String :=
  if dlFails then .error ("Failed to download audio for video " ++ videoId)
  else .ok (tempOutputPath videoId)

/-- `cleanup_audio_file`: checks `os.path.exists`, attempts `os.remove`
when the file exists; its internal `try/except` swallows any error raised
by the removal (`raised` is recorded in the trace but can never propagate
to the caller — the function is total). -/
def cleanup_audio_file (fileExists removeRaises : Bool) (path : String) : List Effect :=
  .cleanupCall path :: (if fileExists then [.removeAttempt path removeRaises] else [])

/-- The JSON body written by a handler. -/
inductive Response where
  | err (msg : String)
  | transcriptOk (segments : List TranscriptSegment) (extractionMethod : String)
      (count : Nat)
  | eventsOk (evs : List (List (String × PyVal))) (extractionMethod : String)
      (count : Nat)

/-- Decoded request body of the analyze endpoint (`None` for an absent
key, mirroring `request_data.get`). -/
structure AnalyzeBody where
  videoId : Option PyVal
  sensitivity : Option PyVal
  videoDuration : Option PyVal

/-- The external world one analyze request runs against. -/
structure AnalyzeWorld where
  dlFails : Bool
  asr : Except String WhisperResult
  env : Option String
  jl : String → Option PyVal
  oracle : Nat → GeminiOutcome
  fileExists : Bool
  removeRaises : Bool

/-- `handler.do_POST` of `analyze-asr.py` after the body has been decoded:
validation, defaulted parameters, then
download → transcribe → classify → respond, with `finally`-cleanup, which
runs only when `audio_path` was assigned — i.e. only when the download
returned. -/
def analyze_do_POST (b : AnalyzeBody) (w : AnalyzeWorld) : Response × List Effect :=
  match checkVideoId (b.videoId.getD .null) with
  | .missing => (.err "Missing \x27videoId\x27 in request body for ASR analysis.", [])
  | .invalid =>
    (.err "Invalid video ID format. YouTube video IDs should be 11 characters long.", [])
  | .typeError => (.err "Internal server error", [])
  | .ok vid =>
    let sens := resolveSensitivity (b.sensitivity.getD (.int 5))
    let maxT := resolveMaxTimestamp (b.videoDuration.getD (.int 450))
    match download_youtube_audio vid w.dlFails with
    | .error m => (.err m, [.download vid])
    | .ok path =>
      let cl := cleanup_audio_file w.fileExists w.removeRaises path
      match transcribe_audio w.asr with
      | .error m => (.err m, [.download vid, .transcribeCall path] ++ cl)
      | .ok segs =>
        if segs.length == 0 then
          (.err "ASR transcription produced no results. The video may not contain speech or the audio quality is too poor.",
            [.download vid, .transcribeCall path] ++ cl)
        else
          match analyze_with_gemini w.env w.jl w.oracle segs sens maxT with
          | .error m => (.err m, [.download vid, .transcribeCall path, .classify] ++ cl)
          | .ok evs =>
            (.eventsOk evs "huggingface-whisper-asr" segs.length,
              [.download vid, .transcribeCall path, .classify] ++ cl)

/-- The external world one transcribe request runs against. -/
structure TranscribeWorld where
  dlFails : Bool
  asr : Except String WhisperResult
  fileExists : Bool
  removeRaises : Bool

/-- `TranscribeHandler.do_POST` of `transcribe.py` after body decoding:
same pipeline without the classification step. -/
def transcribe_do_POST (videoId : Option PyVal) (w : TranscribeWorld) :
    Response × List Effect :=
  match checkVideoId (videoId.getD .null) with
  | .missing => (.err "Missing \x27videoId\x27 in request body.", [])
  | .invalid =>
    (.err "Invalid video ID format. YouTube video IDs should be 11 characters long.", [])
  | .typeError => (.err "Internal server error", [])
  | .ok vid =>
    match download_youtube_audio vid w.dlFails with
    | .error m => (.err m, [.download vid])
    | .ok path =>
      let cl := cleanup_audio_file w.fileExists w.removeRaises path
      match transcribe_audio w.asr with
      | .error m => (.err m, [.download vid, .transcribeCall path] ++ cl)
      | .ok segs =>
        if segs.length == 0 then
          (.err "ASR transcription produced no results. The video may not contain speech or the audio quality is too poor.",
            [.download vid, .transcribeCall path] ++ cl)
        else
          (.transcriptOk segs "huggingface-whisper-asr" segs.length,
            [.download vid, .transcribeCall path] ++ cl)

/-! ### Specification-side definitions -/

/-- Truncation toward zero, in specification form (`pyTrunc` computes it;
see `pyTrunc_eq`). -/
def qtrunc (q : ℚ) : Int := if 0 ≤ q then ⌊q⌋ else ⌈q⌉

/-- A character the spec allows in a videoId: alphanumeric, `-` or `_`. -/
def allowedChar (c : Char) : Bool := isalnumChar c || c == '\x2d' || c == '\x5f'

/-- The spec-side validity condition as the claim states it, plus the
extra conjunct the code actually requires (at least one alphanumeric
character, because `''.isalnum()` is false). -/
def goodId (s : String) : Prop :=
  s.toList.length = 11 ∧ (∀ c ∈ s.toList, allowedChar c = true) ∧
    ∃ c ∈ s.toList, isalnumChar c = true

/-- Total companion of `convertChunk` on complete chunks. -/
def chunkSeg (c : WhisperChunk) : TranscriptSegment :=
  match c.timestamp, c.text with
  | some (s, e), some t => ⟨pyInt1000 s, pyStrip t, some (pyIntDiff1000 e s)⟩
  | _, _ => ⟨0, "", none⟩

/-- Remove index `n` from an index-keyed oracle. -/
def dropAt (n : Nat) (o : Nat → GeminiOutcome) : Nat → GeminiOutcome :=
  fun j => if j < n then o j else o (j + 1)

/-- The per-segment failure modes of the classification loop: a raised
exception, a non-200 status, a non-empty non-marker reply that parses
neither directly nor through the brace-extraction fallback, a reply that
parses to a non-object, or an object missing a required field. -/
def outcomeFails (jl : String → Option PyVal) : GeminiOutcome → Bool
  | .exn => true
  | .http status body =>
    if status != 200 then true
    else
      if pyStrip body != "" && pyStrip body != "\x22\x22" then
        match parseAiResponse jl body with
        | some (.dict es) => !hasAllFields es
        | some _ => true
        | none => true
      else false

/-- A failure of a segment that the loop actually processes (i.e. one
inside the timestamp cutoff). -/
def isSegFailure (jl : String → Option PyVal) (maxT : Int) (seg : TranscriptSegment)
    (out : GeminiOutcome) : Bool :=
  decide (offsetSec seg.offset ≤ (maxT : ℚ)) && outcomeFails jl out

/-! ### Arithmetic bridge lemmas -/

theorem tdiv_eq_qtrunc (a : Int) (b : Nat) (hb : 0 < b) :
    a.tdiv (b : Int) = qtrunc ((a : ℚ) / (b : ℚ)) := by
  rcases le_or_lt 0 a with ha | ha
  · have hq : (0 : ℚ) ≤ (a : ℚ) / (b : ℚ) := by positivity
    rw [qtrunc, if_pos hq, Rat.floor_intCast_div_natCast]
    exact Int.tdiv_eq_ediv ha (by positivity)
  · have hb' : (0 : ℚ) < (b : ℚ) := by positivity
    have hq : (a : ℚ) / (b : ℚ) < 0 := div_neg_of_neg_of_pos (by exact_mod_cast ha) hb'
    have h1 : ⌈(a : ℚ) / (b : ℚ)⌉ = -⌊((-a : Int) : ℚ) / (b : ℚ)⌋ := by
      push_cast
      rw [neg_div]
      exact rfl
    rw [qtrunc, if_neg (not_le.mpr hq), h1, Rat.floor_intCast_div_natCast,
      ← Int.tdiv_eq_ediv (show (0 : Int) ≤ -a by omega) (show (0 : Int) ≤ (b : Int) by positivity),
      Int.neg_tdiv, neg_neg]

/-- `pyTrunc` is truncation toward zero. -/
theorem pyTrunc_eq (q : ℚ) : pyTrunc q = qtrunc q := by
  rw [pyTrunc, tdiv_eq_qtrunc q.num q.den q.pos, Rat.num_div_den]

/-- `offsetSec` is division by 1000. -/
theorem offsetSec_eq (o : Int) : offsetSec o = (o : ℚ) / 1000 := by
  rw [offsetSec, Rat.mkRat_eq_div]
  norm_num

/-- `pyInt1000` is `int(x * 1000)`. -/
theorem pyInt1000_eq (q : ℚ) : pyInt1000 q = qtrunc (q * 1000) := by
  rw [pyInt1000, tdiv_eq_qtrunc _ q.den q.pos]
  congr 1
  push_cast
  conv_rhs => rw [← Rat.num_div_den q]
  rw [div_mul_eq_mul_div]

/-- `q * q.den = q.num` over ℚ. -/
theorem rat_mul_den (q : ℚ) : q * (q.den : ℚ) = (q.num : ℚ) := by
  have h : ((q.den : ℚ)) ≠ 0 := by positivity
  have h2 := Rat.num_div_den q
  rw [div_eq_iff h] at h2
  exact h2.symm

/-- `pyIntDiff1000` is `int((e - s) * 1000)`. -/
theorem pyIntDiff1000_eq (e s : ℚ) : pyIntDiff1000 e s = qtrunc ((e - s) * 1000) := by
  rw [pyIntDiff1000,
    show ((e.den : Int) * (s.den : Int)) = ((e.den * s.den : Nat) : Int) by push_cast; ring,
    tdiv_eq_qtrunc _ (e.den * s.den) (by positivity)]
  congr 1
  push_cast
  rw [div_eq_iff (by positivity)]
  linear_combination (1000 * (e.den : ℚ)) * rat_mul_den s - (1000 * (s.den : ℚ)) * rat_mul_den e

/-- Truncation toward zero of a rational below an integer bound stays
below that bound. -/
theorem pyTrunc_le_of_le (q : ℚ) (m : Int) (h : q ≤ (m : ℚ)) : pyTrunc q ≤ m := by
  rw [pyTrunc_eq, qtrunc]
  split
  · simpa using Int.floor_le_floor h
  · exact Int.ceil_le.mpr h

/-- Truncation toward zero agrees with floor on non-negative rationals. -/
theorem pyTrunc_eq_floor (q : ℚ) (h : 0 ≤ q) : pyTrunc q = ⌊q⌋ := by
  rw [pyTrunc_eq, qtrunc, if_pos h]

/-! ### Validation characterisation -/

theorem isalnumChar_not_sep {c : Char} (h : isalnumChar c = true) :
    c ≠ '\x2d' ∧ c ≠ '\x5f' := by
  constructor <;> rintro rfl <;> exact absurd h (by decide)

/-- What the format test actually accepts: length 11, every character
alphanumeric or `-`/`_`, and at least one character alphanumeric. -/
theorem validVideoId_iff (s : String) : validVideoId s = true ↔ goodId s := by
  unfold validVideoId goodId pyStrIsAlnum stripDashUnderscore
  constructor
  · intro h
    simp only [Bool.and_eq_true, beq_iff_eq, List.all_eq_true, Bool.not_eq_true'] at h
    obtain ⟨hlen, hne, hall⟩ := h
    refine ⟨hlen, ?_, ?_⟩
    · intro c hc
      by_cases hsep : (c == '\x2d' || c == '\x5f') = true
      · simp only [allowedChar, Bool.or_assoc, Bool.or_eq_true]
        right
        rw [Bool.or_eq_true] at hsep
        exact hsep
      · have hmem : c ∈ s.toList.filter (fun c => !(c == '\x2d' || c == '\x5f')) :=
          List.mem_filter.mpr ⟨hc, by simp [Bool.eq_false_iff.mpr hsep]⟩
        have := hall c hmem
        simp [allowedChar, this]
    · have hnil : s.toList.filter (fun c => !(c == '\x2d' || c == '\x5f')) ≠ [] := by
        intro hnil
        rw [hnil] at hne
        exact absurd hne (by decide)
      obtain ⟨c, hc⟩ := List.exists_mem_of_ne_nil _ hnil
      exact ⟨c, (List.mem_filter.mp hc).1, hall c hc⟩
  · rintro ⟨hlen, hall, c, hc, hcal⟩
    simp only [Bool.and_eq_true, beq_iff_eq, List.all_eq_true, Bool.not_eq_true']
    obtain ⟨h1, h2⟩ := isalnumChar_not_sep hcal
    have hcf : c ∈ s.toList.filter (fun c => !(c == '\x2d' || c == '\x5f')) :=
      List.mem_filter.mpr ⟨hc, by simp [h1, h2]⟩
    refine ⟨hlen, ?_, ?_⟩
    · exact List.isEmpty_eq_false.mpr (List.ne_nil_of_mem hcf)
    · intro d hd
      obtain ⟨hdm, hdk⟩ := List.mem_filter.mp hd
      have hda := hall d hdm
      simp only [allowedChar, Bool.or_assoc, Bool.or_eq_true] at hda
      rcases hda with h | h
      · exact h
      · rw [Bool.not_eq_true', Bool.or_eq_false_iff] at hdk
        rcases h with h | h
        · rw [h] at hdk
          exact absurd hdk.1 (by decide)
        · rw [h] at hdk
          exact absurd hdk.2 (by decide)

/-! ### Dict-merge lemmas -/

theorem foldl_dictInsert_fresh (es : List (String × PyVal)) :
    ∀ acc : List (String × PyVal),
      (∀ p ∈ es, hasKey p.1 acc = false) → (es.map Prod.fst).Nodup →
      es.foldl (fun d p => dictInsert d p.1 p.2) acc = acc ++ es := by
  induction es with
  | nil =>
    intro acc _ _
    simp
  | cons p t ih =>
    intro acc hfresh hnd
    simp only [List.foldl_cons]
    have hp : hasKey p.1 acc = false := hfresh p (by simp)
    rw [dictInsert, if_neg (by simp [hp])]
    have hnd' : (p.1 :: t.map Prod.fst).Nodup := by simpa using hnd
    rw [ih (acc ++ [p]) ?_ (List.nodup_cons.mp hnd').2]
    · simp
    · intro q hq
      have h1 : hasKey q.1 acc = false := hfresh q (by simp [hq])
      have h2 : (q.1 == p.1) = false := by
        refine beq_eq_false_iff_ne.mpr fun he => ?_
        exact (List.nodup_cons.mp hnd').1 (he ▸ List.mem_map_of_mem Prod.fst hq)
      have h2' : ¬p.1 = q.1 := fun he => by
        rw [he] at h2
        exact absurd h2 (by simp)
      rw [hasKey] at h1 ⊢
      simp [List.any_append, h1, h2, h2']

/-- When the parsed object has pairwise-distinct keys and none of them is
`timestamp`, the merged event is literally the computed timestamp entry
followed by the object's entries. -/
theorem mkEvent_eq_cons (t : Int) (es : List (String × PyVal))
    (hts : hasKey "timestamp" es = false) (hnd : (es.map Prod.fst).Nodup) :
    mkEvent t es = ("timestamp", PyVal.int t) :: es := by
  rw [mkEvent, foldl_dictInsert_fresh es [("timestamp", PyVal.int t)] ?_ hnd]
  · rfl
  · intro p hp
    have hne : (p.1 == "timestamp") = false := by
      rw [hasKey, List.any_eq_false] at hts
      exact Bool.of_not_eq_true (hts p hp)
    have hne' : ("timestamp" == p.1) = false := by
      refine beq_eq_false_iff_ne.mpr fun he => ?_
      exact absurd (beq_iff_eq.mpr he.symm) (by simp [hne])
    simp only [hasKey, List.any_cons, List.any_nil, Bool.or_false]
    exact hne' 

/-! ### Loop lemmas -/

/-- The chunk loop keeps exactly the complete chunks, in order. -/
theorem filterMap_convertChunk (cs : List WhisperChunk) :
    cs.filterMap convertChunk = (cs.filter chunkComplete).map chunkSeg := by
  induction cs with
  | nil => rfl
  | cons c t ih =>
    obtain ⟨ts, tx⟩ := c
    cases ts with
    | none =>
      cases tx <;>
        simp [List.filterMap_cons, List.filter_cons, convertChunk, chunkComplete, ih]
    | some p =>
      obtain ⟨st, en⟩ := p
      cases tx with
      | none =>
        simp [List.filterMap_cons, List.filter_cons, convertChunk, chunkComplete, ih]
      | some txt =>
        simp [List.filterMap_cons, List.filter_cons, convertChunk, chunkComplete,
          chunkSeg, ih]

/-- Shifting past a removed oracle index. -/
theorem analyzeGo_dropAt (jl : String → Option PyVal) (o : Nat → GeminiOutcome)
    (maxT : Int) (post : List TranscriptSegment) :
    ∀ i n, n ≤ i →
      analyzeGo jl (dropAt n o) maxT i post = analyzeGo jl o maxT (i + 1) post := by
  induction post with
  | nil =>
    intro i n _
    rfl
  | cons s t ih =>
    intro i n h
    simp only [analyzeGo]
    have h1 : dropAt n o i = o (i + 1) := by
      rw [dropAt]
      exact if_neg (by omega)
    rw [h1, ih (i + 1) n (by omega)]

/-- Removing a segment whose call contributes nothing leaves the rest of
the batch unchanged (with the oracle reindexed past the removed call). -/
theorem analyzeGo_skip (jl : String → Option PyVal) (o : Nat → GeminiOutcome)
    (maxT : Int) :
    ∀ (pre : List TranscriptSegment) (i : Nat) (s : TranscriptSegment)
      (post : List TranscriptSegment),
      segEvent jl maxT s (o (i + pre.length)) = none →
      analyzeGo jl o maxT i (pre ++ s :: post) =
        analyzeGo jl (dropAt (i + pre.length) o) maxT i (pre ++ post) := by
  intro pre
  induction pre with
  | nil =>
    intro i s post h
    simp only [List.nil_append, analyzeGo, List.length_nil, Nat.add_zero] at h ⊢
    rw [h, analyzeGo_dropAt jl o maxT post i i le_rfl]
    rfl
  | cons a pre' ih =>
    intro i s post h
    simp only [List.cons_append, analyzeGo, List.append_eq]
    have hlen : i + (a :: pre').length = (i + 1) + pre'.length := by
      simp only [List.length_cons]
      omega
    have h1 : dropAt (i + (a :: pre').length) o i = o i := by
      rw [dropAt]
      exact if_pos (by simp only [List.length_cons]; omega)
    rw [h1, hlen, ih (i + 1) s post (by rw [← hlen]; exact h)]

/-- A processed segment whose call fails contributes no event. -/
theorem segEvent_eq_none_of_failure (jl : String → Option PyVal) (maxT : Int)
    (seg : TranscriptSegment) (out : GeminiOutcome)
    (h : isSegFailure jl maxT seg out = true) :
    segEvent jl maxT seg out = none := by
  rw [isSegFailure, Bool.and_eq_true, decide_eq_true_iff] at h
  obtain ⟨hin, hfail⟩ := h
  cases out with
  | exn => rfl
  | http status body =>
    rw [outcomeFails] at hfail
    rw [segEvent, if_neg (not_lt.mpr hin)]
    by_cases hst : status = 200
    · subst hst
      rw [if_neg (by simp)] at hfail
      rw [if_pos (show ((200 : Nat) == 200) = true by rfl)]
      by_cases hmk : (pyStrip body != "" && pyStrip body != "\x22\x22") = true
      · rw [if_pos hmk] at hfail
        rw [if_pos hmk]
        cases hp : parseAiResponse jl body with
        | none => rfl
        | some v =>
          rw [hp] at hfail
          cases v with
          | dict es =>
            simp only [Bool.not_eq_true'] at hfail
            simp [hfail]
          | null => rfl
          | bool b => rfl
          | int n => rfl
          | float q => rfl
          | str s2 => rfl
      · rw [if_neg hmk] at hfail
        exact absurd hfail (by simp)
    · rw [if_neg (by simp [hst])]

/-! ### C1 — videoId validation -/

/-- C1 (amended): validation passes exactly for the 11-character strings
over alphanumerics, `-` and `_` that contain at least one alphanumeric
character — an id consisting solely of `-`/`_` is rejected, because after
stripping those characters the empty string fails `isalnum`.  Whenever
validation does not pass, either endpoint answers with an in-band error
and performs no download, transcription or classification effect. -/
theorem C1_videoId_validation (v : PyVal) (s : String) (b : AnalyzeBody)
    (w : AnalyzeWorld) (vt : Option PyVal) (wt : TranscribeWorld) :
    (checkVideoId v = ValOutcome.ok s ↔ v = PyVal.str s ∧ goodId s)
  ∧ ((checkVideoId (b.videoId.getD PyVal.null)).passes = false →
      (analyze_do_POST b w).2 = [] ∧ ∃ m, (analyze_do_POST b w).1 = Response.err m)
  ∧ ((checkVideoId (vt.getD PyVal.null)).passes = false →
      (transcribe_do_POST vt wt).2 = [] ∧
        ∃ m, (transcribe_do_POST vt wt).1 = Response.err m) := by
  refine ⟨⟨?_, ?_⟩, ?_, ?_⟩
  · intro h
    cases v with
    | str s2 =>
      rw [checkVideoId] at h
      split at h
      · exact absurd h (by simp)
      · split at h
        · injection h with hs
          subst hs
          exact ⟨rfl, (validVideoId_iff s2).mp (by assumption)⟩
        · exact absurd h (by simp)
    | null => exact absurd h (by simp [checkVideoId, PyVal.truthy])
    | bool b2 =>
      rw [checkVideoId] at h
      split at h <;> simp at h
    | int n =>
      rw [checkVideoId] at h
      split at h <;> simp at h
    | float q =>
      rw [checkVideoId] at h
      split at h <;> simp at h
    | dict es =>
      rw [checkVideoId] at h
      split at h <;> simp at h
  · rintro ⟨rfl, hg⟩
    have hv : validVideoId s = true := (validVideoId_iff s).mpr hg
    have hne : (s != "") = true := by
      rw [bne_iff_ne]
      intro he
      rw [he] at hg
      exact absurd hg.1 (by decide)
    simp [checkVideoId, PyVal.truthy, hne, hv]
  · intro hp
    rcases hc : checkVideoId (b.videoId.getD PyVal.null) with _ | _ | _ | s2
    · exact ⟨by simp [analyze_do_POST, hc],
        "Missing \x27videoId\x27 in request body for ASR analysis.",
        by simp [analyze_do_POST, hc]⟩
    · exact ⟨by simp [analyze_do_POST, hc],
        "Invalid video ID format. YouTube video IDs should be 11 characters long.",
        by simp [analyze_do_POST, hc]⟩
    · exact ⟨by simp [analyze_do_POST, hc], "Internal server error",
        by simp [analyze_do_POST, hc]⟩
    · rw [hc] at hp
      exact absurd hp (by simp [ValOutcome.passes])
  · intro hp
    rcases hc : checkVideoId (vt.getD PyVal.null) with _ | _ | _ | s2
    · exact ⟨by simp [transcribe_do_POST, hc],
        "Missing \x27videoId\x27 in request body.",
        by simp [transcribe_do_POST, hc]⟩
    · exact ⟨by simp [transcribe_do_POST, hc],
        "Invalid video ID format. YouTube video IDs should be 11 characters long.",
        by simp [transcribe_do_POST, hc]⟩
    · exact ⟨by simp [transcribe_do_POST, hc], "Internal server error",
        by simp [transcribe_do_POST, hc]⟩
    · rw [hc] at hp
      exact absurd hp (by simp [ValOutcome.passes])

/-- C1 counterexample to the claim as stated: 11 underscores — exactly 11
characters, every one in the allowed set, yet validation rejects it. -/
theorem C1_counterexample :
    "___________".toList.length = 11
  ∧ (∀ c ∈ "___________".toList, allowedChar c = true)
  ∧ checkVideoId (PyVal.str "___________") = ValOutcome.invalid
  ∧ (checkVideoId (PyVal.str "___________")).passes = false := by decide

/-- C1 witness at concrete inputs. -/
theorem C1_videoId_validation_witness :
    checkVideoId (PyVal.str "dQw4w9WgXcQ") = ValOutcome.ok "dQw4w9WgXcQ"
  ∧ (analyze_do_POST ⟨some (PyVal.str "abc"), none, none⟩
      ⟨false, Except.ok ⟨none, some "hi"⟩, some "k", fun _ => none,
        fun _ => GeminiOutcome.exn, true, false⟩).2 = []
  ∧ (transcribe_do_POST (some (PyVal.str "abc"))
      ⟨false, Except.ok ⟨none, some "hi"⟩, true, false⟩).2 = [] := by
  have h := C1_videoId_validation (PyVal.str "dQw4w9WgXcQ") "dQw4w9WgXcQ"
    ⟨some (PyVal.str "abc"), none, none⟩
    ⟨false, Except.ok ⟨none, some "hi"⟩, some "k", fun _ => none,
      fun _ => GeminiOutcome.exn, true, false⟩
    (some (PyVal.str "abc"))
    ⟨false, Except.ok ⟨none, some "hi"⟩, true, false⟩
  exact ⟨h.1.mpr ⟨rfl, (validVideoId_iff "dQw4w9WgXcQ").mp (by decide)⟩,
    (h.2.1 (by decide)).1, (h.2.2 (by decide)).1⟩

/-! ### C8 / C10 — parameter defaulting and truncation -/

/-- C8: values that fail `isinstance(x, (int, float))` fall back to the
defaults (5 / 450); numeric values out of range fall back too; in-range
numeric values are used, truncated by `int(...)`.  Python's `isinstance`
counts booleans as numbers (`True` is the number 1). -/
theorem C8_parameter_defaults (v : PyVal) :
    (v.isNum = false → resolveSensitivity v = 5 ∧ resolveMaxTimestamp v = 450)
  ∧ (v.isNum = true →
      ((v.toQ < 1 ∨ 10 < v.toQ) → resolveSensitivity v = 5)
      ∧ (1 ≤ v.toQ → v.toQ ≤ 10 → resolveSensitivity v = pyTrunc v.toQ)
      ∧ (v.toQ ≤ 10 → resolveMaxTimestamp v = 450)
      ∧ (10 < v.toQ → resolveMaxTimestamp v = pyTrunc v.toQ)) := by
  refine ⟨fun hn => ⟨?_, ?_⟩, fun hn => ⟨fun hr => ?_, fun h1 h2 => ?_, fun hr => ?_,
    fun hr => ?_⟩⟩
  · rw [resolveSensitivity, if_neg (by simp [hn])]
  · rw [resolveMaxTimestamp, if_neg (by simp [hn])]
  · rcases hr with hr | hr
    · rw [resolveSensitivity, if_neg (by simp [hn, not_le.mpr hr])]
    · rw [resolveSensitivity, if_neg (by simp [hn, not_le.mpr hr])]
  · rw [resolveSensitivity, if_pos (by simp [hn, h1, h2])]
  · rw [resolveMaxTimestamp, if_neg (by simp [hn, not_lt.mpr hr])]
  · rw [resolveMaxTimestamp, if_pos (by simp [hn, hr])]

/-- C8 witness at concrete inputs. -/
theorem C8_parameter_defaults_witness :
    (PyVal.str "seven").isNum = false
  ∧ resolveSensitivity (PyVal.str "seven") = 5
  ∧ resolveMaxTimestamp (PyVal.str "seven") = 450 := by
  have h := (C8_parameter_defaults (PyVal.str "seven")).1 (by decide)
  exact ⟨by decide, h.1, h.2⟩

/-- C10: a non-integer number in range is truncated toward zero and used,
for both parameters. -/
theorem C10_noninteger_truncation (q d : ℚ) (h1 : 1 ≤ q) (h2 : q ≤ 10)
    (h3 : ¬q.isInt) (h4 : 10 < d) (h5 : ¬d.isInt) :
    resolveSensitivity (PyVal.float q) = qtrunc q
  ∧ resolveMaxTimestamp (PyVal.float d) = qtrunc d
  ∧ qtrunc q = ⌊q⌋ ∧ qtrunc d = ⌊d⌋ := by
  refine ⟨?_, ?_, ?_, ?_⟩
  · rw [resolveSensitivity, if_pos (by simp [PyVal.isNum, PyVal.toQ, h1, h2]),
      PyVal.toQ, pyTrunc_eq]
  · rw [resolveMaxTimestamp, if_pos (by simp [PyVal.isNum, PyVal.toQ, h4]),
      PyVal.toQ, pyTrunc_eq]
  · rw [qtrunc, if_pos (by linarith)]
  · rw [qtrunc, if_pos (by linarith)]

/-- C10 witness: sensitivity 5.7 and duration 99.9. -/
theorem C10_noninteger_truncation_witness :
    resolveSensitivity (PyVal.float (mkRat 57 10)) = qtrunc (mkRat 57 10)
  ∧ resolveMaxTimestamp (PyVal.float (mkRat 999 10)) = qtrunc (mkRat 999 10) := by
  have h := C10_noninteger_truncation (mkRat 57 10) (mkRat 999 10)
    (by decide) (by decide) (by decide) (by decide) (by decide)
  exact ⟨h.1, h.2.1⟩

/-! ### C3 — timestamp cutoff -/

/-- C3 (amended): a segment whose offset in seconds exceeds the cutoff is
skipped before any request and never yields an event.  Every emitted
event is the merge `{'timestamp': int(offset/1000), **event_obj}` of a
processed segment, and its computed timestamp is at most the cutoff; that
computed value is the event's `timestamp` entry whenever the parsed reply
does not carry a `timestamp` key of its own — a reply's `timestamp` key
overrides the computed one, which the claim as stated does not allow. -/
theorem C3_cutoff (jl : String → Option PyVal) (maxT : Int)
    (seg : TranscriptSegment) (out : GeminiOutcome) :
    (offsetSec seg.offset > (maxT : ℚ) → segEvent jl maxT seg out = none)
  ∧ (∀ e, segEvent jl maxT seg out = some e →
      offsetSec seg.offset ≤ (maxT : ℚ)
      ∧ pyTrunc (offsetSec seg.offset) ≤ maxT
      ∧ ∃ es, e = mkEvent (pyTrunc (offsetSec seg.offset)) es
          ∧ (hasKey "timestamp" es = false → (es.map Prod.fst).Nodup →
              dictGet "timestamp" e =
                some (PyVal.int (pyTrunc (offsetSec seg.offset))))) := by
  constructor
  · intro hgt
    cases out with
    | exn => rfl
    | http status body => rw [segEvent, if_pos hgt]
  · intro e he
    cases out with
    | exn => exact absurd he (by simp [segEvent])
    | http status body =>
      rw [segEvent] at he
      split at he
      · exact absurd he (by simp)
      · rename_i hcut
        have hle : offsetSec seg.offset ≤ (maxT : ℚ) := not_lt.mp hcut
        refine ⟨hle, pyTrunc_le_of_le _ _ hle, ?_⟩
        split at he
        · split at he
          · split at he
            · split at he
              · injection he with he2
                refine ⟨_, he2.symm, fun hts hnd => ?_⟩
                rw [← he2, mkEvent_eq_cons _ _ hts hnd, dictGet]
                simp [List.find?]
              · exact absurd he (by simp)
            · exact absurd he (by simp)
          · exact absurd he (by simp)
        · exact absurd he (by simp)

/-- C3 counterexample to the claim as stated: with cutoff 450, a reply
object carrying its own `timestamp: 9999` produces an emitted event whose
timestamp entry is 9999 > 450. -/
theorem C3_counterexample :
    analyzeGo
      (fun _ => some (PyVal.dict [("category", PyVal.str "Negative Speech"),
        ("subCategory", PyVal.str "Hostility"), ("description", PyVal.str "d"),
        ("phrase", PyVal.str "p"), ("timestamp", PyVal.int 9999)]))
      (fun _ => GeminiOutcome.http 200 "x") 450 0 [⟨0, "t", none⟩]
      = [[("timestamp", PyVal.int 9999), ("category", PyVal.str "Negative Speech"),
          ("subCategory", PyVal.str "Hostility"), ("description", PyVal.str "d"),
          ("phrase", PyVal.str "p")]]
  ∧ dictGet "timestamp" [("timestamp", PyVal.int 9999),
      ("category", PyVal.str "Negative Speech"),
      ("subCategory", PyVal.str "Hostility"), ("description", PyVal.str "d"),
      ("phrase", PyVal.str "p")] = some (PyVal.int 9999)
  ∧ ¬((9999 : Int) ≤ 450) :=
  ⟨rfl, rfl, by decide⟩

/-- C3 witness at concrete inputs. -/
theorem C3_cutoff_witness :
    segEvent (fun _ => none) 450 ⟨500000, "a", none⟩ (GeminiOutcome.http 200 "x") = none
  ∧ pyTrunc (offsetSec 2000) ≤ 450 := by
  refine ⟨(C3_cutoff (fun _ => none) 450 ⟨500000, "a", none⟩
    (GeminiOutcome.http 200 "x")).1 (by decide), ?_⟩
  have h2 := ((C3_cutoff (fun _ => some (PyVal.dict [("category", PyVal.str "c"),
      ("subCategory", PyVal.str "s"), ("description", PyVal.str "d"),
      ("phrase", PyVal.str "p")])) 450 ⟨2000, "a", none⟩
      (GeminiOutcome.http 200 "y")).2
    (mkEvent (pyTrunc (offsetSec 2000)) [("category", PyVal.str "c"),
      ("subCategory", PyVal.str "s"), ("description", PyVal.str "d"),
      ("phrase", PyVal.str "p")]) rfl)
  exact h2.2.1

/-! ### C6 — event construction -/

/-- C6 (amended): for a processed segment whose reply parses to an object
with all four required fields, exactly one event is emitted, namely the
merge `{'timestamp': int(offset/1000), **event_obj}`.  When the parsed
object's keys are pairwise distinct and do not include `timestamp`, the
event is literally the computed-timestamp entry followed by ALL the
parsed entries (extra fields beyond the required four are carried
through, and a `timestamp` field of the reply would override the computed
one).  The computed timestamp is `floor(offsetMs / 1000)` for a
non-negative offset, and no segment ever yields more than one event. -/
theorem C6_event_shape (jl : String → Option PyVal) (maxT : Int)
    (seg : TranscriptSegment) (body : String) (es : List (String × PyVal))
    (hc : offsetSec seg.offset ≤ (maxT : ℚ))
    (hne : (pyStrip body != "" && pyStrip body != "\x22\x22") = true)
    (hp : parseAiResponse jl body = some (PyVal.dict es))
    (hf : hasAllFields es = true) :
    segEvent jl maxT seg (GeminiOutcome.http 200 body)
      = some (mkEvent (pyTrunc (offsetSec seg.offset)) es)
  ∧ (hasKey "timestamp" es = false → (es.map Prod.fst).Nodup →
      mkEvent (pyTrunc (offsetSec seg.offset)) es
        = ("timestamp", PyVal.int (pyTrunc (offsetSec seg.offset))) :: es)
  ∧ (0 ≤ seg.offset → pyTrunc (offsetSec seg.offset) = ⌊(seg.offset : ℚ) / 1000⌋)
  ∧ ∀ out, (segEvent jl maxT seg out).toList.length ≤ 1 := by
  refine ⟨?_, fun hts hnd => mkEvent_eq_cons _ es hts hnd, fun hoff => ?_, fun out => ?_⟩
  · rw [segEvent, if_neg (not_lt.mpr hc), if_pos (by rfl), if_pos hne, hp]
    simp [hf]
  · rw [offsetSec_eq, pyTrunc_eq_floor]
    exact div_nonneg (by exact_mod_cast hoff) (by norm_num)
  · cases segEvent jl maxT seg out <;> simp

/-- C6 counterexample to the claim as stated: a reply object with the four
required fields plus an extra `note` field yields an event whose content
is not exactly the four fields — the fifth field is carried through. -/
theorem C6_counterexample :
    segEvent (fun _ => some (PyVal.dict [("category", PyVal.str "c"),
      ("subCategory", PyVal.str "s"), ("description", PyVal.str "d"),
      ("phrase", PyVal.str "p"), ("note", PyVal.str "extra")])) 450
      ⟨0, "t", none⟩ (GeminiOutcome.http 200 "z")
      = some [("timestamp", PyVal.int 0), ("category", PyVal.str "c"),
          ("subCategory", PyVal.str "s"), ("description", PyVal.str "d"),
          ("phrase", PyVal.str "p"), ("note", PyVal.str "extra")]
  ∧ "note" ∉ ["category", "subCategory", "description", "phrase", "timestamp"] :=
  ⟨rfl, by decide⟩

/-- C6 witness at concrete inputs. -/
theorem C6_event_shape_witness :
    segEvent (fun _ => some (PyVal.dict [("category", PyVal.str "c2"),
      ("subCategory", PyVal.str "s2"), ("description", PyVal.str "d2"),
      ("phrase", PyVal.str "p2")])) 450 ⟨3000, "u", none⟩
      (GeminiOutcome.http 200 "w")
      = some (mkEvent (pyTrunc (offsetSec 3000)) [("category", PyVal.str "c2"),
          ("subCategory", PyVal.str "s2"), ("description", PyVal.str "d2"),
          ("phrase", PyVal.str "p2")]) := by
  exact (C6_event_shape (fun _ => some (PyVal.dict [("category", PyVal.str "c2"),
    ("subCategory", PyVal.str "s2"), ("description", PyVal.str "d2"),
    ("phrase", PyVal.str "p2")])) 450 ⟨3000, "u", none⟩ "w"
    [("category", PyVal.str "c2"), ("subCategory", PyVal.str "s2"),
      ("description", PyVal.str "d2"), ("phrase", PyVal.str "p2")]
    (by decide) (by decide) rfl (by decide)).1

/-! ### C4 — credential check -/

/-- C4 (amended): classification fails with the credential message exactly
when `GEMINI_API_KEY` is unset OR set to the empty string (the code tests
Python falsiness of `os.getenv`, so an empty value also fails, which the
claim's "absent" does not cover).  The check runs once, before any
segment: in the failing case the result is independent of the remote
oracle and of the segment list (no request issued, no event produced),
and the analyze endpoint returns the same message in-band. -/
theorem C4_credential (env : Option String) (jl : String → Option PyVal)
    (o o2 : Nat → GeminiOutcome) (segs segs2 : List TranscriptSegment)
    (sens maxT : Int) (b : AnalyzeBody) (w : AnalyzeWorld) (wr : WhisperResult) :
    (analyze_with_gemini env jl o segs sens maxT
        = Except.error "GEMINI_API_KEY environment variable not set"
      ↔ envTruthy env = false)
  ∧ (envTruthy env = false →
      analyze_with_gemini env jl o segs sens maxT
        = analyze_with_gemini env jl o2 segs2 sens maxT)
  ∧ (∀ vid, checkVideoId (b.videoId.getD PyVal.null) = ValOutcome.ok vid →
      w.dlFails = false → w.asr = Except.ok wr → whisperSegments wr ≠ [] →
      w.env = none →
      (analyze_do_POST b w).1
        = Response.err "GEMINI_API_KEY environment variable not set") := by
  refine ⟨?_, fun henv => ?_, fun vid hok hdl hasr hne henv => ?_⟩
  · cases henv : envTruthy env <;> simp [analyze_with_gemini, henv]
  · rw [analyze_with_gemini, analyze_with_gemini, henv]
    simp
  · simp [analyze_do_POST, hok, hdl, hasr, hne, henv, download_youtube_audio,
      transcribe_audio, analyze_with_gemini, envTruthy, List.length_eq_zero]

/-- C4 counterexample to the claim as stated: with the credential present
but empty, classification still fails with the credential message, though
the variable is not absent from the environment. -/
theorem C4_counterexample :
    analyze_with_gemini (some "") (fun _ => none) (fun _ => GeminiOutcome.exn)
      [] 5 450 = Except.error "GEMINI_API_KEY environment variable not set"
  ∧ some "" ≠ (none : Option String) :=
  ⟨rfl, by decide⟩

/-- C4 witness at concrete inputs. -/
theorem C4_credential_witness :
    analyze_with_gemini none (fun _ => none) (fun _ => GeminiOutcome.exn)
      [⟨0, "x", none⟩] 5 450
      = Except.error "GEMINI_API_KEY environment variable not set"
  ∧ (analyze_do_POST ⟨some (PyVal.str "dQw4w9WgXcQ"), none, none⟩
      ⟨false, Except.ok ⟨none, some "hello"⟩, none, fun _ => none,
        fun _ => GeminiOutcome.exn, true, false⟩).1
      = Response.err "GEMINI_API_KEY environment variable not set" := by
  have h := C4_credential none (fun _ => none) (fun _ => GeminiOutcome.exn)
    (fun _ => GeminiOutcome.exn) [⟨0, "x", none⟩] [] 5 450
    ⟨some (PyVal.str "dQw4w9WgXcQ"), none, none⟩
    ⟨false, Except.ok ⟨none, some "hello"⟩, none, fun _ => none,
      fun _ => GeminiOutcome.exn, true, false⟩
    ⟨none, some "hello"⟩
  exact ⟨h.1.mpr rfl, h.2.2 "dQw4w9WgXcQ" (by decide) rfl rfl (by decide) rfl⟩

/-! ### C5 — per-segment failure isolation -/

/-- C5: a per-segment failure (raised exception, non-200 status,
unparseable reply, reply parsing to a non-object, or object missing a
required field) on a processed segment contributes nothing to the
returned event list and skips only that segment: the batch result equals
that of the remaining segments in their original order, with the oracle
reindexed past the failed call.  No failure aborts the batch. -/
theorem C5_failure_isolation (jl : String → Option PyVal)
    (o : Nat → GeminiOutcome) (maxT : Int) (pre post : List TranscriptSegment)
    (s : TranscriptSegment) (i : Nat)
    (h : isSegFailure jl maxT s (o (i + pre.length)) = true) :
    segEvent jl maxT s (o (i + pre.length)) = none
  ∧ analyzeGo jl o maxT i (pre ++ s :: post)
      = analyzeGo jl (dropAt (i + pre.length) o) maxT i (pre ++ post) := by
  have hn := segEvent_eq_none_of_failure jl maxT s (o (i + pre.length)) h
  exact ⟨hn, analyzeGo_skip jl o maxT pre i s post hn⟩

/-- C5 witness: a 500-status call on the middle segment of three. -/
theorem C5_failure_isolation_witness :
    segEvent (fun _ => none) 450 ⟨1000, "b", none⟩ (GeminiOutcome.http 500 "bad") = none
  ∧ analyzeGo (fun _ => none) (fun _ => GeminiOutcome.http 500 "bad") 450 0
      [⟨0, "a", none⟩, ⟨1000, "b", none⟩, ⟨2000, "c", none⟩]
      = analyzeGo (fun _ => none)
          (dropAt 1 (fun _ => GeminiOutcome.http 500 "bad")) 450 0
          [⟨0, "a", none⟩, ⟨2000, "c", none⟩] := by
  have h := C5_failure_isolation (fun _ => none)
    (fun _ => GeminiOutcome.http 500 "bad") 450 [⟨0, "a", none⟩]
    [⟨2000, "c", none⟩] ⟨1000, "b", none⟩ 0 (by decide)
  exact h

/-! ### C7 — transcriber normalisation -/

/-- C7: with a chunked result, one segment per complete chunk, in chunk
order, whose offset is `int(start * 1000)` and duration
`int((end - start) * 1000)` (truncation toward zero of the
milliseconds values); with an unchunked text result, exactly one segment
with offset 0 and no duration. -/
theorem C7_normalisation (r : WhisperResult) (cs : List WhisperChunk)
    (t : String) (st en : ℚ) (tx : String) :
    (r.chunks = some cs →
      whisperSegments r = (cs.filter chunkComplete).map chunkSeg)
  ∧ chunkSeg ⟨some (st, en), some tx⟩
      = ⟨qtrunc (st * 1000), pyStrip tx, some (qtrunc ((en - st) * 1000))⟩
  ∧ (r.chunks = none → r.text = some t →
      whisperSegments r = [⟨0, pyStrip t, none⟩]) := by
  refine ⟨fun hc => ?_, ?_, fun hc ht => ?_⟩
  · obtain ⟨rc, rt⟩ := r
    replace hc : rc = some cs := hc
    subst hc
    exact filterMap_convertChunk cs
  · show (⟨pyInt1000 st, pyStrip tx, some (pyIntDiff1000 en st)⟩ : TranscriptSegment) = _
    rw [pyInt1000_eq, pyIntDiff1000_eq]
  · obtain ⟨rc, rt⟩ := r
    replace hc : rc = none := hc
    replace ht : rt = some t := ht
    subst hc
    subst ht
    rfl

/-- C7 witness: one complete and one incomplete chunk, and a single
untimed result. -/
theorem C7_normalisation_witness :
    whisperSegments ⟨some [⟨some (3, 5), some " hi "⟩, ⟨none, some "bad"⟩], none⟩
      = ([⟨some (3, 5), some " hi "⟩,
          (⟨none, some "bad"⟩ : WhisperChunk)].filter chunkComplete).map chunkSeg
  ∧ whisperSegments ⟨none, some " solo "⟩ = [⟨0, pyStrip " solo ", none⟩] := by
  have h1 := (C7_normalisation
    ⟨some [⟨some (3, 5), some " hi "⟩, ⟨none, some "bad"⟩], none⟩
    [⟨some (3, 5), some " hi "⟩, ⟨none, some "bad"⟩] "" 3 5 " hi ").1 rfl
  have h2 := (C7_normalisation ⟨none, some " solo "⟩ [] " solo " 0 0 "").2.2 rfl rfl
  exact ⟨h1, h2⟩

/-! ### C9 — empty transcript -/

/-- C9: when download succeeds and transcription yields zero segments,
both endpoints answer with the fixed in-band error, and the
classification step is never invoked. -/
theorem C9_empty_transcript (b : AnalyzeBody) (w : AnalyzeWorld)
    (vt : Option PyVal) (wt : TranscribeWorld) (wr wr2 : WhisperResult) :
    (∀ vid, checkVideoId (b.videoId.getD PyVal.null) = ValOutcome.ok vid →
      w.dlFails = false → w.asr = Except.ok wr → whisperSegments wr = [] →
      (analyze_do_POST b w).1 = Response.err "ASR transcription produced no results. The video may not contain speech or the audio quality is too poor."
      ∧ Effect.classify ∉ (analyze_do_POST b w).2)
  ∧ (∀ vid, checkVideoId (vt.getD PyVal.null) = ValOutcome.ok vid →
      wt.dlFails = false → wt.asr = Except.ok wr2 → whisperSegments wr2 = [] →
      (transcribe_do_POST vt wt).1 = Response.err "ASR transcription produced no results. The video may not contain speech or the audio quality is too poor."
      ∧ Effect.classify ∉ (transcribe_do_POST vt wt).2) := by
  refine ⟨fun vid hok hdl hasr hemp => ⟨?_, ?_⟩, fun vid hok hdl hasr hemp => ⟨?_, ?_⟩⟩
  · simp [analyze_do_POST, hok, hdl, hasr, hemp, download_youtube_audio,
      transcribe_audio]
  · cases hfe : w.fileExists <;>
      simp [analyze_do_POST, hok, hdl, hasr, hemp, hfe, download_youtube_audio,
        transcribe_audio, cleanup_audio_file]
  · simp [transcribe_do_POST, hok, hdl, hasr, hemp, download_youtube_audio,
      transcribe_audio]
  · cases hfe : wt.fileExists <;>
      simp [transcribe_do_POST, hok, hdl, hasr, hemp, hfe, download_youtube_audio,
        transcribe_audio, cleanup_audio_file]

/-- C9 witness at concrete inputs (empty chunk list → zero segments). -/
theorem C9_empty_transcript_witness :
    (analyze_do_POST ⟨some (PyVal.str "dQw4w9WgXcQ"), none, none⟩
      ⟨false, Except.ok ⟨some [], none⟩, some "k", fun _ => none,
        fun _ => GeminiOutcome.exn, true, false⟩).1
      = Response.err "ASR transcription produced no results. The video may not contain speech or the audio quality is too poor."
  ∧ Effect.classify ∉ (transcribe_do_POST (some (PyVal.str "dQw4w9WgXcQ"))
      ⟨false, Except.ok ⟨some [], none⟩, true, false⟩).2 := by
  have h := C9_empty_transcript ⟨some (PyVal.str "dQw4w9WgXcQ"), none, none⟩
    ⟨false, Except.ok ⟨some [], none⟩, some "k", fun _ => none,
      fun _ => GeminiOutcome.exn, true, false⟩
    (some (PyVal.str "dQw4w9WgXcQ"))
    ⟨false, Except.ok ⟨some [], none⟩, true, false⟩
    ⟨some [], none⟩ ⟨some [], none⟩
  exact ⟨(h.1 "dQw4w9WgXcQ" (by decide) rfl rfl rfl).1,
    (h.2 "dQw4w9WgXcQ" (by decide) rfl rfl rfl).2⟩

/-! ### C2 — cleanup -/

/-- C2 (amended): once the download step returns a path, `finally` invokes
cleanup exactly once on every exit path — transcription failure, empty
transcript, classification failure, success — attempting one removal iff
the file exists; a failure raised inside cleanup is swallowed there and
never changes the response (the response is independent of whether the
removal raises).  When the download step itself raises, `audio_path` is
still `None` and cleanup is not invoked at all, contrary to the claim's
"download-throws" case. -/
theorem C2_cleanup (b : AnalyzeBody) (w : AnalyzeWorld) :
    (∀ vid, checkVideoId (b.videoId.getD PyVal.null) = ValOutcome.ok vid →
      (w.dlFails = false →
        (analyze_do_POST b w).2.count (Effect.cleanupCall (tempOutputPath vid)) = 1
        ∧ (analyze_do_POST b w).2.count
            (Effect.removeAttempt (tempOutputPath vid) w.removeRaises)
            = (if w.fileExists then 1 else 0))
      ∧ (w.dlFails = true →
          (analyze_do_POST b w).2 = [Effect.download vid]))
  ∧ ∀ rr rr2, (analyze_do_POST b {w with removeRaises := rr}).1
      = (analyze_do_POST b {w with removeRaises := rr2}).1 := by
  constructor
  · intro vid hok
    constructor
    · intro hdl
      rcases hasr : w.asr with e | wr
      · cases hfe : w.fileExists <;>
          simp [analyze_do_POST, hok, hdl, hasr, hfe, download_youtube_audio,
            transcribe_audio, cleanup_audio_file, List.count_cons, List.count_append]
      · by_cases hemp : whisperSegments wr = []
        · cases hfe : w.fileExists <;>
            simp [analyze_do_POST, hok, hdl, hasr, hemp, hfe, download_youtube_audio,
              transcribe_audio, cleanup_audio_file, List.count_cons, List.count_append]
        · rcases han : analyze_with_gemini w.env w.jl w.oracle (whisperSegments wr)
              (resolveSensitivity (b.sensitivity.getD (PyVal.int 5)))
              (resolveMaxTimestamp (b.videoDuration.getD (PyVal.int 450))) with m | evs
          · cases hfe : w.fileExists <;>
              simp [analyze_do_POST, hok, hdl, hasr, hemp, han, hfe,
                download_youtube_audio, transcribe_audio, cleanup_audio_file,
                List.count_cons, List.count_append]
          · cases hfe : w.fileExists <;>
              simp [analyze_do_POST, hok, hdl, hasr, hemp, han, hfe,
                download_youtube_audio, transcribe_audio, cleanup_audio_file,
                List.count_cons, List.count_append]
    · intro hdl
      simp [analyze_do_POST, hok, hdl, download_youtube_audio]
  · intro rr rr2
    rcases hc : checkVideoId (b.videoId.getD PyVal.null) with _ | _ | _ | vid <;>
      simp only [analyze_do_POST, hc]
    cases hdl : w.dlFails
    · rcases hasr : w.asr with e | wr
      · simp [download_youtube_audio, transcribe_audio, hdl, hasr]
      · by_cases hemp : whisperSegments wr = []
        · simp [download_youtube_audio, transcribe_audio, hdl, hasr, hemp]
        · rcases han : analyze_with_gemini w.env w.jl w.oracle (whisperSegments wr)
              (resolveSensitivity (b.sensitivity.getD (PyVal.int 5)))
              (resolveMaxTimestamp (b.videoDuration.getD (PyVal.int 450))) with m | evs <;>
            simp [download_youtube_audio, transcribe_audio, hdl, hasr, hemp, han,
              List.length_eq_zero]
    · simp [download_youtube_audio, hdl]

/-- C2 counterexample to the claim as stated: when the download step
raises, the trace is the download attempt alone — cleanup is never
invoked and no removal is attempted on that exit path. -/
theorem C2_counterexample :
    (analyze_do_POST ⟨some (PyVal.str "dQw4w9WgXcQ"), none, none⟩
      ⟨true, Except.ok ⟨none, some "hi"⟩, some "k", fun _ => none,
        fun _ => GeminiOutcome.exn, true, false⟩).2
      = [Effect.download "dQw4w9WgXcQ"]
  ∧ (analyze_do_POST ⟨some (PyVal.str "dQw4w9WgXcQ"), none, none⟩
      ⟨true, Except.ok ⟨none, some "hi"⟩, some "k", fun _ => none,
        fun _ => GeminiOutcome.exn, true, false⟩).2.count
      (Effect.cleanupCall (tempOutputPath "dQw4w9WgXcQ")) = 0
  ∧ (analyze_do_POST ⟨some (PyVal.str "dQw4w9WgXcQ"), none, none⟩
      ⟨true, Except.ok ⟨none, some "hi"⟩, some "k", fun _ => none,
        fun _ => GeminiOutcome.exn, true, false⟩).2.count
      (Effect.removeAttempt (tempOutputPath "dQw4w9WgXcQ") false) = 0 := by
  refine ⟨rfl, ?_, ?_⟩ <;> decide

/-- C2 witness: a successful download followed by a transcription failure
still cleans up exactly once, and the response ignores a cleanup
failure. -/
theorem C2_cleanup_witness :
    (analyze_do_POST ⟨some (PyVal.str "dQw4w9WgXcQ"), none, none⟩
      ⟨false, Except.error "boom", some "k", fun _ => none,
        fun _ => GeminiOutcome.exn, true, true⟩).2.count
      (Effect.cleanupCall (tempOutputPath "dQw4w9WgXcQ")) = 1
  ∧ (analyze_do_POST ⟨some (PyVal.str "dQw4w9WgXcQ"), none, none⟩
      ⟨false, Except.error "boom", some "k", fun _ => none,
        fun _ => GeminiOutcome.exn, true, true⟩).1
      = (analyze_do_POST ⟨some (PyVal.str "dQw4w9WgXcQ"), none, none⟩
        ⟨false, Except.error "boom", some "k", fun _ => none,
          fun _ => GeminiOutcome.exn, true, false⟩).1 := by
  have h := C2_cleanup ⟨some (PyVal.str "dQw4w9WgXcQ"), none, none⟩
    ⟨false, Except.error "boom", some "k", fun _ => none,
      fun _ => GeminiOutcome.exn, true, true⟩
  exact ⟨((h.1 "dQw4w9WgXcQ" (by decide)).1 rfl).1, h.2 true false⟩
